import Mathlib

/-!
Shallow embedding of the cart-extraction and verification logic of the
playwright-planit test suite (CartPage, ShopPage), together with theorems
settling the specification claims about it.

JavaScript numbers are idealised as `Option ℚ`: `none` models `NaN`, and
`some q` a finite value whose decimal arithmetic is taken exactly.  DOM
interaction is modelled by an environment (`Scope`, `PageEnv`) mapping
selector strings to lookup outcomes; a lookup outcome of `lerr` models any
exception thrown inside the per-candidate `try` block of the source, which
the source catches and treats as "try the next candidate".
-/

namespace Planit

/-- A JavaScript number: `none` is `NaN`, `some q` a finite value. -/
abbrev JSNum := Option ℚ

/-- JS addition; `NaN` is absorbing. -/
def jadd : JSNum → JSNum → JSNum
  | some a, some b => some (a + b)
  | _, _ => none

/-- JS multiplication; `NaN` is absorbing. -/
def jmul : JSNum → JSNum → JSNum
  | some a, some b => some (a * b)
  | _, _ => none

/-- JS subtraction; `NaN` is absorbing. -/
def jsub : JSNum → JSNum → JSNum
  | some a, some b => some (a - b)
  | _, _ => none

/-- JS `Math.abs`; `Math.abs(NaN)` is `NaN`. -/
def jabs : JSNum → JSNum := Option.map (fun q => |q|)

/-- JS `<`: every comparison involving `NaN` is false. -/
def jlt : JSNum → JSNum → Bool
  | some a, some b => decide (a < b)
  | _, _ => false

/-- JS `>`: every comparison involving `NaN` is false. -/
def jgt : JSNum → JSNum → Bool
  | some a, some b => decide (b < a)
  | _, _ => false

/-- Rounding to 2 decimal places as JS `toFixed(2)` does on the exact value:
nearest multiple of 1/100, ties resolved to the larger candidate. -/
def round2 (q : ℚ) : ℚ := ((⌊q * 100 + 1 / 2⌋ : ℤ) : ℚ) / 100

/-- The `parseFloat(x.toFixed(2))` pattern of CartPage line 248; `NaN` stays `NaN`. -/
def toFixed2 : JSNum → JSNum := Option.map round2

/-- Numeric value of a list of decimal digit characters. -/
def digitsVal (ds : List Char) : ℕ :=
  ds.foldl (fun acc c => 10 * acc + (c.toNat - 48)) 0

/-- JS `parseFloat` on the strings the source actually feeds it (strings over
digits and the dot, as produced by `jsCleanNum`, plus the literal "0"): parse
the longest valid leading prefix of shape `digits [. digits*]` or `. digits+`;
`NaN` when there is none (for instance on "." or ""). -/
def parseFloatDD (s : String) : JSNum :=
  let cs := s.toList
  let d1 := cs.takeWhile Char.isDigit
  let rest := cs.dropWhile Char.isDigit
  match rest with
  | '.' :: rest2 =>
    let d2 := rest2.takeWhile Char.isDigit
    if d1.isEmpty && d2.isEmpty then none
    else some ((digitsVal d1 : ℚ) + (digitsVal d2 : ℚ) / 10 ^ d2.length)
  | _ => if d1.isEmpty then none else some ((digitsVal d1 : ℚ))

/-- The regex replace `.replace(/[^0-9.]/g, '')`: keep only digits and dots. -/
def jsCleanNum (s : String) : String :=
  String.mk (s.toList.filter (fun c => c.isDigit || c == '.'))

/-- CartPage lines 172/174/209: `parseFloat(text.replace(/[^0-9.]/g, '') || '0')`. -/
def parseCurrency (s : String) : JSNum :=
  let t := jsCleanNum s
  parseFloatDD (if t = "" then "0" else t)

/-- JS `parseInt(s, 10)`: skip leading whitespace, read an optional sign, then
leading base-10 digits; `NaN` (`none`) when no digit follows. -/
def jsParseInt (s : String) : Option ℤ :=
  let cs := s.toList.dropWhile Char.isWhitespace
  let body := if cs.head? == some '-' || cs.head? == some '+' then cs.tail else cs
  let d := body.takeWhile Char.isDigit
  if d.isEmpty then none
  else if cs.head? == some '-' then some (-(digitsVal d : ℤ)) else some ((digitsVal d : ℤ))

/-- CartPage line 173: `parseInt(quantityText || '0', 10)`. -/
def parseQuantity (s : String) : Option ℤ :=
  jsParseInt (if s = "" then "0" else s)

/-- The quantity as it is stored in the cart item record (a JS number). -/
def quantityNum (s : String) : JSNum :=
  (parseQuantity s).map (fun z => (z : ℚ))

/-- Outcome of resolving one selector candidate inside a scope.  `lerr` models
any exception raised inside the per-candidate `try` block (count, text or
value retrieval); `ok n t v` means `count()` returned `n`, `textContent()`
would return `t` (`none` = null) and `inputValue()` would return `v`. -/
inductive Lookup where
  | lerr : Lookup
  | ok (count : ℕ) (text : Option String) (value : Option String) : Lookup
deriving DecidableEq

/-- A scope (the whole page or one cart row) resolves selector strings. -/
abbrev Scope := String → Lookup

/-- The candidate selector is counted as matching when its lookup succeeded
with a nonzero element count. -/
def hasMatch : Lookup → Bool
  | .lerr => false
  | .ok n _ _ => 0 < n

/-- CartPage lines 17-22. -/
def cartRowSelectors : List String := [".cart-item", "tr", "tbody tr", ".item"]

/-- CartPage lines 24-29. -/
def productNameSelectors : List String :=
  [".product-title", "td:first-child", ".item-name", ".name"]

/-- CartPage lines 31-36. -/
def productPriceSelectors : List String :=
  [".product-price", "td:nth-child(2)", ".price", ".item-price"]

/-- CartPage lines 38-43. -/
def productQuantitySelectors : List String :=
  ["input.input-mini", "input[type=\"number\"]", ".quantity input", "td:nth-child(3) input"]

/-- CartPage lines 45-50. -/
def productSubtotalSelectors : List String :=
  [".line-price", "td:last-child", ".subtotal", ".item-total"]

/-- CartPage lines 52-57. -/
def totalPriceSelectors : List String :=
  [".total", "tfoot .total", "tfoot td:last-child", ".cart-total"]

/-- CartPage lines 128-141: try each selector in order; on the first one whose
count is nonzero return `textContent() || ''`; errors advance to the next
candidate; return the empty string when the list is exhausted. -/
def getTextWithSelectors (scope : Scope) : List String → String
  | [] => ""
  | sel :: rest =>
    match scope sel with
    | .lerr => getTextWithSelectors scope rest
    | .ok n t _ =>
      if 0 < n then t.getD "" else getTextWithSelectors scope rest

/-- CartPage lines 144-157: like `getTextWithSelectors` but reading
`inputValue() || '0'`, with "0" as the exhausted-list default. -/
def getInputValueWithSelectors (scope : Scope) : List String → String
  | [] => "0"
  | sel :: rest =>
    match scope sel with
    | .lerr => getInputValueWithSelectors scope rest
    | .ok n _ v =>
      if 0 < n then (if v.getD "" = "" then "0" else v.getD "") else
        getInputValueWithSelectors scope rest

/-- One extracted cart line (CartItem interface, lines 300-305). -/
structure CartItem where
  name : String
  price : JSNum
  quantity : JSNum
  subtotal : JSNum
deriving DecidableEq

/-- The rendered cart page as the extractor observes it: a count per row
selector (`none` = the count call threw), a scope for the i-th row of a given
row selector, and the page-level scope used for the grand total. -/
structure PageEnv where
  rowCount : String → Option ℕ
  rowScope : String → ℕ → Scope
  pageScope : Scope

/-- CartPage lines 104-120: the first row selector whose count call succeeds
with a nonzero count, together with that count. -/
def findRowSelector (env : PageEnv) : List String → Option (String × ℕ)
  | [] => none
  | sel :: rest =>
    match env.rowCount sel with
    | some n => if 0 < n then some (sel, n) else findRowSelector env rest
    | none => findRowSelector env rest

/-- CartPage lines 162-189: extract the four fields of one row, parse them,
and keep the row only if the name is truthy or price or quantity is positive
(JS comparison, so a NaN field never counts as positive). -/
def processRow (row : Scope) : Option CartItem :=
  let name := getTextWithSelectors row productNameSelectors
  let priceText := getTextWithSelectors row productPriceSelectors
  let quantityText := getInputValueWithSelectors row productQuantitySelectors
  let subtotalText := getTextWithSelectors row productSubtotalSelectors
  let price := parseCurrency priceText
  let quantity := quantityNum quantityText
  let subtotal := parseCurrency subtotalText
  if name ≠ "" ∨ jgt price (some 0) = true ∨ jgt quantity (some 0) = true then
    some ⟨name.trim, price, quantity, subtotal⟩
  else none

/-- CartPage.getCartItems (lines 101-193). -/
def getCartItems (env : PageEnv) : List CartItem :=
  match findRowSelector env cartRowSelectors with
  | none => []
  | some (sel, n) => (List.range n).filterMap (fun i => processRow (env.rowScope sel i))

/-- CartPage.getTotalPrice (lines 199-221): first selector with a match whose
text is truthy wins; a match with null or empty text falls through to the next
candidate; default 0. -/
def getTotalPrice (page : Scope) : List String → JSNum
  | [] => some 0
  | sel :: rest =>
    match page sel with
    | .lerr => getTotalPrice page rest
    | .ok n t _ =>
      if 0 < n then
        match t with
        | some s => if s = "" then getTotalPrice page rest else parseCurrency s
        | none => getTotalPrice page rest
      else getTotalPrice page rest

/-- The reduce of CartPage line 231: fold JS addition of the displayed
subtotals over the item list, starting from 0. -/
def sumSubtotals (items : List CartItem) : JSNum :=
  items.foldl (fun acc it => jadd acc it.subtotal) (some 0)

/-- CartPage.calculateSumOfSubtotals (lines 227-235). -/
def calculateSumOfSubtotals (env : PageEnv) : JSNum :=
  sumSubtotals (getCartItems env)

/-- The comparison of CartPage lines 249 and 279: `Math.abs(a - b) < 0.01`. -/
def approxTol (a b : JSNum) : Bool :=
  jlt (jabs (jsub a b)) (some (1 / 100))

/-- One entry of the subtotal verification report (lines 310-317). -/
structure SubtotalVerificationResult where
  productName : String
  price : JSNum
  quantity : JSNum
  actualSubtotal : JSNum
  expectedSubtotal : JSNum
  isCorrect : Bool
deriving DecidableEq

/-- The pure core of CartPage.verifySubtotals (lines 245-267), over an
already-extracted item list. -/
def verifySubtotalsOf (items : List CartItem) : List SubtotalVerificationResult :=
  items.map (fun item =>
    let expectedSubtotal := toFixed2 (jmul item.price item.quantity)
    { productName := item.name
      price := item.price
      quantity := item.quantity
      actualSubtotal := item.subtotal
      expectedSubtotal := expectedSubtotal
      isCorrect := approxTol expectedSubtotal item.subtotal })

/-- CartPage.verifySubtotals (lines 241-268). -/
def verifySubtotals (env : PageEnv) : List SubtotalVerificationResult :=
  verifySubtotalsOf (getCartItems env)

/-- The total verification report (lines 322-326). -/
structure TotalVerificationResult where
  total : JSNum
  sumOfSubtotals : JSNum
  isCorrect : Bool
deriving DecidableEq

/-- CartPage.verifyTotal (lines 274-294). -/
def verifyTotal (env : PageEnv) : TotalVerificationResult :=
  let total := getTotalPrice env.pageScope totalPriceSelectors
  let s := calculateSumOfSubtotals env
  { total := total, sumOfSubtotals := s, isCorrect := approxTol total s }

/-- ShopPage lines 28-37: the hardcoded price table. -/
def productPrices : String → Option ℚ
  | "Teddy Bear" => some (1299 / 100)
  | "Stuffed Frog" => some (1099 / 100)
  | "Handmade Doll" => some (1099 / 100)
  | "Fluffy Bunny" => some (999 / 100)
  | "Smiley Bear" => some (1499 / 100)
  | "Funny Cow" => some (1099 / 100)
  | "Valentine Bear" => some (1499 / 100)
  | "Smiley Face" => some (999 / 100)
  | _ => none

/-- ShopPage lines 16-25: the hardcoded product-id table. -/
def productIds : String → Option String
  | "Teddy Bear" => some "product-1"
  | "Stuffed Frog" => some "product-2"
  | "Handmade Doll" => some "product-3"
  | "Fluffy Bunny" => some "product-4"
  | "Smiley Bear" => some "product-5"
  | "Funny Cow" => some "product-6"
  | "Valentine Bear" => some "product-7"
  | "Smiley Face" => some "product-8"
  | _ => none

/-- ShopPage.getProductPrice (lines 86-114): a price-table hit returns the
constant; otherwise the page is consulted via the id table, and a missing id,
a thrown lookup, or null/empty text all end in the error being (re)thrown
(`Except.error`).  Note line 103 has no `|| '0'` fallback, so an empty cleaned
text would parse to NaN. -/
def getProductPrice (page : Scope) (productName : String) : Except Unit JSNum :=
  match productPrices productName with
  | some p => .ok (some p)
  | none =>
    match productIds productName with
    | some pid =>
      match page ("#" ++ pid ++ " .product-price") with
      | .lerr => .error ()
      | .ok _ t _ =>
        match t with
        | some s => if s = "" then .error () else .ok (parseFloatDD (jsCleanNum s))
        | none => .error ()
    | none => .error ()

/-- Fold of JS addition over a list of JS numbers, starting from 0. -/
def jsumList (l : List JSNum) : JSNum := l.foldl jadd (some 0)

/-- The page environment of an empty rendered cart: every count is 0 and
every element is absent. -/
def scopeEmpty : Scope := fun _ => .ok 0 none none

/-- A whole-page environment in which nothing matches. -/
def envEmpty : PageEnv := ⟨fun _ => some 0, fun _ _ => scopeEmpty, scopeEmpty⟩

/-- A row whose name cell reads "Frog" and whose other cells are absent. -/
def scopeRowA : Scope := fun s =>
  if s = ".product-title" then .ok 1 (some "Frog") none else .ok 0 none none

/-- A cart page with a single row, detected by the first row selector. -/
def envOne : PageEnv :=
  ⟨fun s => if s = ".cart-item" then some 1 else some 0, fun _ _ => scopeRowA, scopeEmpty⟩

/-- A row named "X" whose quantity input field holds the string "-5". -/
def scopeRowNeg : Scope := fun s =>
  if s = ".product-title" then .ok 1 (some "X") none
  else if s = "input.input-mini" then .ok 1 none (some "-5")
  else .ok 0 none none

/- Helper lemmas. -/

theorem hasMatch_false_lerr {l : Lookup} (h : l = .lerr) : hasMatch l = false := by
  rw [h]; rfl

theorem getText_cons_noMatch (scope : Scope) (s : String) (rest : List String)
    (h : hasMatch (scope s) = false) :
    getTextWithSelectors scope (s :: rest) = getTextWithSelectors scope rest := by
  cases hs : scope s with
  | lerr => simp [getTextWithSelectors, hs]
  | ok m t v =>
    have hm : ¬ 0 < m := by simpa [hasMatch, hs] using h
    simp [getTextWithSelectors, hs, hm]

theorem getInput_cons_noMatch (scope : Scope) (s : String) (rest : List String)
    (h : hasMatch (scope s) = false) :
    getInputValueWithSelectors scope (s :: rest) = getInputValueWithSelectors scope rest := by
  cases hs : scope s with
  | lerr => simp [getInputValueWithSelectors, hs]
  | ok m t v =>
    have hm : ¬ 0 < m := by simpa [hasMatch, hs] using h
    simp [getInputValueWithSelectors, hs, hm]

theorem parseFloatDD_nonneg (s : String) (q : ℚ) (h : parseFloatDD s = some q) : 0 ≤ q := by
  simp only [parseFloatDD] at h
  split at h
  · split at h
    · exact absurd h (by simp)
    · rw [Option.some.injEq] at h
      subst h
      positivity
  · split at h
    · exact absurd h (by simp)
    · rw [Option.some.injEq] at h
      subst h
      positivity

theorem parseFloatDD_zero : parseFloatDD "0" = some 0 := by
  have h : parseFloatDD "0" = some ((digitsVal ['0'] : ℚ)) := rfl
  have h1 : digitsVal ['0'] = 0 := by decide
  rw [h, h1]; norm_num

theorem nonneg_of_ite_natCast {c : Prop} [Decidable c] {m : ℕ} {n : ℤ}
    (h : (if c then none else some ((m : ℤ))) = some n) : 0 ≤ n := by
  split at h
  · exact absurd h (by simp)
  · rw [Option.some.injEq] at h
    subst h
    exact Int.natCast_nonneg _

theorem jsParseInt_nonneg_of_no_minus (s : String) (hs : '-' ∉ s.toList)
    (n : ℤ) (h : jsParseInt s = some n) : 0 ≤ n := by
  simp only [jsParseInt] at h
  have hmem : '-' ∉ s.toList.dropWhile Char.isWhitespace := fun hin =>
    hs ((List.dropWhile_sublist Char.isWhitespace).subset hin)
  have hhead : (s.toList.dropWhile Char.isWhitespace).head? ≠ some '-' := by
    intro he
    exact hmem (List.mem_of_mem_head? he)
  have hneg : ((s.toList.dropWhile Char.isWhitespace).head? == some '-') = false := by
    simpa using hhead
  rw [hneg] at h
  simp only [Bool.false_or] at h
  rw [if_neg Bool.false_ne_true] at h
  exact nonneg_of_ite_natCast h

/-- C3: the tolerance comparison used by both verifiers is strict
`|a - b| < 0.01`.  A value is within tolerance of itself and of itself plus
0.005, and is NOT within tolerance of itself plus 0.01 (the boundary). -/
theorem approxTol_strict_boundary (a : ℚ) :
    approxTol (some a) (some a) = true ∧
    approxTol (some a) (some (a + 5 / 1000)) = true ∧
    approxTol (some a) (some (a + 1 / 100)) = false := by
  have h5 : a - (a + 5 / 1000) = -(5 / 1000) := by ring
  have h1 : a - (a + 1 / 100) = -(1 / 100) := by ring
  refine ⟨?_, ?_, ?_⟩
  · simp [approxTol, jlt, jabs, jsub]
  · simp [approxTol, jlt, jabs, jsub, h5]
    rw [abs_of_nonneg (by norm_num : (0 : ℚ) ≤ 5 / 1000)]
    norm_num
  · simp [approxTol, jlt, jabs, jsub, h1]
    exact le_abs_self _

/-- C4 counterexample: the quantity parser is JS `parseInt` with an optional
sign, so the string "-5" parses to the negative integer -5 (the claim says the
result is never negative), and an undigited string like "abc" parses to NaN,
not 0; a row whose quantity input reads "-5" is extracted with a negative
quantity. -/
theorem parseQuantity_negative_counterexample :
    parseQuantity "-5" = some (-5) ∧ ¬ (0 ≤ (-5 : ℤ)) ∧
    parseQuantity "abc" = none ∧
    (processRow scopeRowNeg).map CartItem.quantity = some (some ((-5 : ℤ) : ℚ)) ∧
    ((-5 : ℤ) : ℚ) < 0 := by
  refine ⟨by decide, by decide, by decide, ?_, by norm_num⟩
  rfl

/-- C4 amended: the quantity parser parses an optional sign and leading
base-10 digits after the empty-string fallback to "0"; for inputs containing
no minus sign every successfully parsed quantity is non-negative, and the
empty string parses to 0 — but a minus-signed input parses to a negative
integer and an undigited input parses to NaN rather than 0. -/
theorem parseQuantity_nonneg_without_minus :
    (∀ s : String, '-' ∉ s.toList → ∀ n : ℤ, parseQuantity s = some n → 0 ≤ n) ∧
    parseQuantity "" = some 0 := by
  refine ⟨?_, by decide⟩
  intro s hminus n h
  rw [parseQuantity] at h
  by_cases hse : s = ""
  · subst hse
    rw [if_pos rfl] at h
    exact jsParseInt_nonneg_of_no_minus "0" (by decide) n h
  · rw [if_neg hse] at h
    exact jsParseInt_nonneg_of_no_minus s hminus n h

/-- C4 amended witness: instantiation at the digit-only string "7". -/
theorem parseQuantity_nonneg_without_minus_witness :
    parseQuantity "7" = some 7 ∧ (0 : ℤ) ≤ 7 := by
  refine ⟨by decide, ?_⟩
  exact parseQuantity_nonneg_without_minus.1 "7" (by decide) 7 (by decide)

/-- C5 counterexample: on the input "." the cleaned remainder "." is non-empty
but unparsable, and the parser yields NaN rather than the claimed 0. -/
theorem parseCurrency_dot_counterexample :
    jsCleanNum "." = "." ∧ parseCurrency "." = none ∧ parseCurrency "." ≠ some 0 := by
  refine ⟨by decide, by decide, by decide⟩

/-- C5 amended: the currency parser keeps only digits and dots, parses the
remainder as a float, returns 0 whenever the remainder is EMPTY (so in
particular on "" and "abc"), parses "$12.99" to 12.99, and never returns a
negative value; but a non-empty unparsable remainder such as "." yields NaN
rather than 0. -/
theorem parseCurrency_amended_behavior :
    parseCurrency "$12.99" = some (1299 / 100) ∧
    parseCurrency "" = some 0 ∧
    parseCurrency "abc" = some 0 ∧
    (∀ s : String, jsCleanNum s = "" → parseCurrency s = some 0) ∧
    (∀ s : String, ∀ q : ℚ, parseCurrency s = some q → 0 ≤ q) := by
  have hzero : ∀ s : String, jsCleanNum s = "" → parseCurrency s = some 0 := by
    intro s hsc
    rw [parseCurrency]
    simp only [hsc, if_pos]
    exact parseFloatDD_zero
  refine ⟨?_, hzero "" (by decide), hzero "abc" (by decide), hzero, ?_⟩
  · have h : parseCurrency "$12.99" =
        some ((digitsVal ['1', '2'] : ℚ) + (digitsVal ['9', '9'] : ℚ) / 10 ^ (2 : ℕ)) := rfl
    have h1 : digitsVal ['1', '2'] = 12 := by decide
    have h2 : digitsVal ['9', '9'] = 99 := by decide
    rw [h, h1, h2]; norm_num
  · intro s q h
    exact parseFloatDD_nonneg _ q h

/-- C5 amended witness: instantiation at the all-letters string "xyz" (empty
cleaned remainder, hence 0) and at "$12.99". -/
theorem parseCurrency_amended_witness :
    parseCurrency "xyz" = some 0 ∧ (0 : ℚ) ≤ 1299 / 100 := by
  refine ⟨parseCurrency_amended_behavior.2.2.2.1 "xyz" (by decide), ?_⟩
  exact parseCurrency_amended_behavior.2.2.2.2 "$12.99" (1299 / 100)
    parseCurrency_amended_behavior.1

/-- C1: verifySubtotals returns exactly one check per item, in input order,
never aborting on a mismatch; the i-th check carries the i-th item's data, its
expectedSubtotal is the item's price times quantity rounded to 2 decimals, and
its isCorrect flag is false exactly when the rounded expected subtotal differs
from the displayed subtotal by at least 0.01. -/
theorem verifySubtotals_full_report (items : List CartItem) :
    (verifySubtotalsOf items).length = items.length ∧
    ∀ i : ℕ, ∀ item : CartItem, items[i]? = some item →
      ∃ check : SubtotalVerificationResult,
        (verifySubtotalsOf items)[i]? = some check ∧
        check.productName = item.name ∧
        check.price = item.price ∧
        check.quantity = item.quantity ∧
        check.actualSubtotal = item.subtotal ∧
        check.expectedSubtotal = toFixed2 (jmul item.price item.quantity) ∧
        ∀ p q d : ℚ, item.price = some p → item.quantity = some q →
          item.subtotal = some d →
          check.expectedSubtotal = some (round2 (p * q)) ∧
          (check.isCorrect = false ↔ 1 / 100 ≤ |round2 (p * q) - d|) := by
  constructor
  · simp [verifySubtotalsOf]
  · intro i item hi
    refine ⟨{ productName := item.name
              price := item.price
              quantity := item.quantity
              actualSubtotal := item.subtotal
              expectedSubtotal := toFixed2 (jmul item.price item.quantity)
              isCorrect := approxTol (toFixed2 (jmul item.price item.quantity))
                item.subtotal },
      ?_, rfl, rfl, rfl, rfl, rfl, ?_⟩
    · simp [verifySubtotalsOf, List.getElem?_map, hi]
    · intro p q d hp hq hd
      constructor
      · rw [hp, hq]; rfl
      · rw [hp, hq, hd]
        simp only [toFixed2, jmul, Option.map_some', approxTol, jsub, jabs, jlt]
        rw [decide_eq_false_iff_not, not_lt]

/-- C1 witness: a single correct line (Stuffed Frog, 10.99 times 2, displayed
21.98), with both hypotheses discharged at the concrete input. -/
theorem verifySubtotals_full_report_witness :
    ∃ check : SubtotalVerificationResult,
      (verifySubtotalsOf
        [⟨"Stuffed Frog", some (1099 / 100), some 2, some (2198 / 100)⟩])[0]? =
        some check ∧
      check.productName = "Stuffed Frog" ∧
      check.expectedSubtotal = some (round2 (1099 / 100 * 2)) ∧
      (check.isCorrect = false ↔ 1 / 100 ≤ |round2 (1099 / 100 * 2) - 2198 / 100|) := by
  obtain ⟨-, h⟩ := verifySubtotals_full_report
    [⟨"Stuffed Frog", some (1099 / 100), some 2, some (2198 / 100)⟩]
  obtain ⟨check, hget, hname, -, -, -, -, hpqd⟩ :=
    h 0 ⟨"Stuffed Frog", some (1099 / 100), some 2, some (2198 / 100)⟩ rfl
  obtain ⟨he, hic⟩ := hpqd (1099 / 100) 2 (2198 / 100) rfl rfl rfl
  exact ⟨check, hget, hname, he, hic⟩

/-- C2: verifyTotal's computedSum is the JS fold of the DISPLAYED per-row
subtotals, its isCorrect flag is the tolerance comparison of the displayed
total against that sum, and the whole result depends only on the displayed
total and the displayed subtotals of the included rows: two page states that
agree on those (whatever their prices and quantities) give equal reports. -/
theorem verifyTotal_uses_displayed_subtotals (env env2 : PageEnv)
    (htot : getTotalPrice env.pageScope totalPriceSelectors =
      getTotalPrice env2.pageScope totalPriceSelectors)
    (hsub : (getCartItems env).map CartItem.subtotal =
      (getCartItems env2).map CartItem.subtotal) :
    (verifyTotal env).sumOfSubtotals =
      jsumList ((getCartItems env).map CartItem.subtotal) ∧
    (verifyTotal env).isCorrect =
      approxTol (verifyTotal env).total (verifyTotal env).sumOfSubtotals ∧
    verifyTotal env = verifyTotal env2 := by
  have key : ∀ its : List CartItem,
      sumSubtotals its = jsumList (its.map CartItem.subtotal) := by
    intro its
    rw [jsumList, List.foldl_map]
    rfl
  have h2 : sumSubtotals (getCartItems env) = sumSubtotals (getCartItems env2) := by
    rw [key, key, hsub]
  refine ⟨key (getCartItems env), rfl, ?_⟩
  simp [verifyTotal, calculateSumOfSubtotals, htot, h2]

/-- C2 witness: instantiation at the empty page environment (twice), both
hypotheses holding by reflexivity. -/
theorem verifyTotal_uses_displayed_subtotals_witness :
    (verifyTotal envEmpty).sumOfSubtotals =
      jsumList ((getCartItems envEmpty).map CartItem.subtotal) ∧
    (verifyTotal envEmpty).isCorrect =
      approxTol (verifyTotal envEmpty).total (verifyTotal envEmpty).sumOfSubtotals ∧
    verifyTotal envEmpty = verifyTotal envEmpty :=
  verifyTotal_uses_displayed_subtotals envEmpty envEmpty rfl rfl

/-- C6: given an ordered candidate list in which every candidate before `sel`
has no match and `sel` has one, both extraction modes return the value found
via `sel` whatever the candidates after it are (they are never consulted); and
when no candidate at all matches, the conservative defaults "" (text mode) and
"0" (input mode) are returned. -/
theorem locator_first_match (scope : Scope) (pre post : List String) (sel : String)
    (n : ℕ) (t v : Option String)
    (hpre : ∀ s ∈ pre, hasMatch (scope s) = false)
    (hsel : scope sel = .ok n t v) (hn : 0 < n) :
    (getTextWithSelectors scope (pre ++ sel :: post) = t.getD "" ∧
     getInputValueWithSelectors scope (pre ++ sel :: post) =
       (if v.getD "" = "" then "0" else v.getD "")) ∧
    (∀ sels : List String, (∀ s ∈ sels, hasMatch (scope s) = false) →
      getTextWithSelectors scope sels = "" ∧
      getInputValueWithSelectors scope sels = "0") := by
  have text1 : ∀ pre2 : List String, (∀ s ∈ pre2, hasMatch (scope s) = false) →
      getTextWithSelectors scope (pre2 ++ sel :: post) = t.getD "" := by
    intro pre2
    induction pre2 with
    | nil => intro _; simp [getTextWithSelectors, hsel, hn]
    | cons a rest ih =>
      intro hp
      rw [List.cons_append, getText_cons_noMatch scope a _ (hp a (by simp))]
      exact ih (fun s hs2 => hp s (by simp [hs2]))
  have input1 : ∀ pre2 : List String, (∀ s ∈ pre2, hasMatch (scope s) = false) →
      getInputValueWithSelectors scope (pre2 ++ sel :: post) =
        (if v.getD "" = "" then "0" else v.getD "") := by
    intro pre2
    induction pre2 with
    | nil => intro _; simp [getInputValueWithSelectors, hsel, hn]
    | cons a rest ih =>
      intro hp
      rw [List.cons_append, getInput_cons_noMatch scope a _ (hp a (by simp))]
      exact ih (fun s hs2 => hp s (by simp [hs2]))
  have defaults : ∀ sels : List String, (∀ s ∈ sels, hasMatch (scope s) = false) →
      getTextWithSelectors scope sels = "" ∧
      getInputValueWithSelectors scope sels = "0" := by
    intro sels
    induction sels with
    | nil => intro _; exact ⟨rfl, rfl⟩
    | cons a rest ih =>
      intro hp
      obtain ⟨ih1, ih2⟩ := ih (fun s hs2 => hp s (by simp [hs2]))
      exact ⟨by rw [getText_cons_noMatch scope a _ (hp a (by simp))]; exact ih1,
             by rw [getInput_cons_noMatch scope a _ (hp a (by simp))]; exact ih2⟩
  exact ⟨⟨text1 pre hpre, input1 pre hpre⟩, defaults⟩

/-- A three-candidate scope for the fallback scenario: "A" matches nothing,
"B" matches one element, any other candidate errors. -/
def scopeFallback : Scope := fun s =>
  if s = "B" then .ok 1 (some "val") (some "7")
  else if s = "A" then .ok 0 none none
  else .lerr

/-- C6 witness: candidates [A, B, C] where only B matches; the locator returns
the value found via B in both modes, and an all-miss list yields the text
default. -/
theorem locator_first_match_witness :
    getTextWithSelectors scopeFallback ["A", "B", "C"] = "val" ∧
    getInputValueWithSelectors scopeFallback ["A", "B", "C"] = "7" ∧
    getTextWithSelectors scopeFallback ["A"] = "" ∧
    getInputValueWithSelectors scopeFallback ["A"] = "0" := by
  obtain ⟨⟨h1, h2⟩, hdef⟩ := locator_first_match scopeFallback ["A"] ["C"] "B" 1
    (some "val") (some "7") (by decide) (by decide) (by decide)
  obtain ⟨h3, h4⟩ := hdef ["A"] (by decide)
  exact ⟨h1, h2, h3, h4⟩

/-- C7: a detected row yields an item exactly when its extracted name is
non-empty or its parsed price or parsed quantity is positive (JS comparison);
and the items getCartItems returns are exactly the surviving rows among the
detected indices. -/
theorem cart_rows_filtered :
    (∀ row : Scope, (∃ item, processRow row = some item) ↔
      (getTextWithSelectors row productNameSelectors ≠ "" ∨
       jgt (parseCurrency (getTextWithSelectors row productPriceSelectors))
         (some 0) = true ∨
       jgt (quantityNum (getInputValueWithSelectors row productQuantitySelectors))
         (some 0) = true)) ∧
    (∀ env : PageEnv, ∀ sel : String, ∀ n : ℕ, ∀ item : CartItem,
      findRowSelector env cartRowSelectors = some (sel, n) →
      (item ∈ getCartItems env ↔
        ∃ i, i < n ∧ processRow (env.rowScope sel i) = some item)) := by
  constructor
  · intro row
    simp only [processRow]
    split
    · rename_i hc
      exact ⟨fun _ => hc, fun _ => ⟨_, rfl⟩⟩
    · rename_i hc
      exact ⟨fun ⟨item, hit⟩ => absurd hit (by simp), fun hcond => absurd hcond hc⟩
  · intro env sel n item h
    simp [getCartItems, h, List.mem_filterMap, List.mem_range]

/-- C7 witness: on a one-row cart whose row has the name "Frog" and nothing
else, membership in the extraction result is characterized by the surviving
row indices. -/
theorem cart_rows_filtered_witness :
    (⟨"Frog", parseCurrency "", quantityNum "0", parseCurrency ""⟩ : CartItem) ∈
        getCartItems envOne ↔
      ∃ i, i < 1 ∧ processRow (envOne.rowScope ".cart-item" i) =
        some ⟨"Frog", parseCurrency "", quantityNum "0", parseCurrency ""⟩ :=
  cart_rows_filtered.2 envOne ".cart-item" 1
    ⟨"Frog", parseCurrency "", quantityNum "0", parseCurrency ""⟩ (by decide)

/-- C9: when no row selector candidate yields a nonzero count (the count call
errors or returns 0 on each), the extractor returns the empty list, the sum of
subtotals is 0, and the total check reports a computed sum of 0. -/
theorem empty_cart_reports_zero (env : PageEnv)
    (h : ∀ sel ∈ cartRowSelectors,
      env.rowCount sel = none ∨ env.rowCount sel = some 0) :
    getCartItems env = [] ∧ calculateSumOfSubtotals env = some 0 ∧
    (verifyTotal env).sumOfSubtotals = some 0 := by
  have hf : findRowSelector env cartRowSelectors = none := by
    have aux : ∀ l : List String,
        (∀ sel ∈ l, env.rowCount sel = none ∨ env.rowCount sel = some 0) →
        findRowSelector env l = none := by
      intro l
      induction l with
      | nil => intro _; rfl
      | cons a rest ih =>
        intro hp
        have hrest := ih (fun s hs2 => hp s (by simp [hs2]))
        rcases hp a (by simp) with ha | ha
        · simp [findRowSelector, ha, hrest]
        · simp [findRowSelector, ha, hrest]
    exact aux cartRowSelectors h
  have hitems : getCartItems env = [] := by simp [getCartItems, hf]
  refine ⟨hitems, ?_, ?_⟩
  · rw [calculateSumOfSubtotals, hitems]; rfl
  · show calculateSumOfSubtotals env = some 0
    rw [calculateSumOfSubtotals, hitems]; rfl

/-- C9 witness: instantiation at the concrete empty page environment, whose
row counts are all 0. -/
theorem empty_cart_reports_zero_witness :
    getCartItems envEmpty = [] ∧ calculateSumOfSubtotals envEmpty = some 0 ∧
    (verifyTotal envEmpty).sumOfSubtotals = some 0 :=
  empty_cart_reports_zero envEmpty (fun _ _ => Or.inr rfl)

/-- C8 counterexample: for a product name absent from both hardcoded tables
("Gorilla"), getProductPrice propagates a thrown error to the caller instead
of returning a not-found value, whatever the page shows. -/
theorem getProductPrice_throws_on_miss :
    productPrices "Gorilla" = none ∧ productIds "Gorilla" = none ∧
    getProductPrice scopeEmpty "Gorilla" = .error () := ⟨rfl, rfl, rfl⟩

/-- C8 amended: a name found in the hardcoded price table returns that price
without throwing, for every page state; but a name absent from both the price
table and the id table makes getProductPrice throw (the catch block rethrows),
so absence of a match DOES raise an exception to the caller. -/
theorem getProductPrice_table_or_throw :
    (∀ page : Scope, ∀ name : String, ∀ p : ℚ,
      productPrices name = some p → getProductPrice page name = .ok (some p)) ∧
    (∀ page : Scope, ∀ name : String,
      productPrices name = none → productIds name = none →
      getProductPrice page name = .error ()) := by
  constructor
  · intro page name p hp
    simp [getProductPrice, hp]
  · intro page name h1 h2
    simp [getProductPrice, h1, h2]

/-- C8 amended witness: "Teddy Bear" returns the table price 12.99 and the
unknown name "Gorilla" throws, both against the empty page. -/
theorem getProductPrice_table_or_throw_witness :
    getProductPrice scopeEmpty "Teddy Bear" = .ok (some (1299 / 100)) ∧
    getProductPrice scopeEmpty "Gorilla" = .error () :=
  ⟨getProductPrice_table_or_throw.1 scopeEmpty "Teddy Bear" (1299 / 100) rfl,
   getProductPrice_table_or_throw.2 scopeEmpty "Gorilla" rfl rfl⟩

/-- C10: for each of the eight catalog names, getProductPrice returns the
hardcoded table price without consulting the rendered page: two runs against
arbitrarily different page states return the same price. -/
theorem hardcoded_price_page_independent (page1 page2 : Scope) (name : String)
    (h : name ∈ (["Teddy Bear", "Stuffed Frog", "Handmade Doll", "Fluffy Bunny",
      "Smiley Bear", "Funny Cow", "Valentine Bear", "Smiley Face"] : List String)) :
    getProductPrice page1 name = getProductPrice page2 name ∧
    ∃ p : ℚ, productPrices name = some p ∧
      getProductPrice page1 name = .ok (some p) := by
  obtain ⟨p, hp⟩ : ∃ p, productPrices name = some p := by
    fin_cases h <;> exact ⟨_, rfl⟩
  refine ⟨?_, p, hp, ?_⟩ <;> simp [getProductPrice, hp]

/-- C10 witness: "Teddy Bear" priced identically against two different page
states. -/
theorem hardcoded_price_page_independent_witness :
    getProductPrice scopeEmpty "Teddy Bear" = getProductPrice scopeRowA "Teddy Bear" ∧
    ∃ p : ℚ, productPrices "Teddy Bear" = some p ∧
      getProductPrice scopeEmpty "Teddy Bear" = .ok (some p) :=
  hardcoded_price_page_independent scopeEmpty scopeRowA "Teddy Bear" (by decide)

end Planit
